/-
Verification of the Transperth Journey Planner integration
(custom_components/transperth_journey_planner) against its specification.

The Python source is shallowly embedded: dynamically typed values are the
inductive `PyVal`; operations that can raise (attribute access on a
non-dict, `.lower()` on a non-string, iterating a non-iterable, joining
non-strings) return `Except String`; the per-entry `try/except` blocks
become catches of those `Except` results.
-/
import Mathlib

set_option linter.unusedVariables false
set_option maxRecDepth 16384

/-- A dynamically-typed Python value, as far as the integration handles them:
strings, ints, bools, lists, string-keyed dicts and `None`. -/
inductive PyVal where
  | vstr : String → PyVal
  | vint : Int → PyVal
  | vbool : Bool → PyVal
  | vlist : List PyVal → PyVal
  | vdict : List (String × PyVal) → PyVal
  | vnone : PyVal
deriving Repr, BEq

/-- Python truthiness: empty string/list/dict, 0, False and None are falsy. -/
def PyVal.truthy : PyVal → Bool
  | .vstr s => !s.isEmpty
  | .vint n => n != 0
  | .vbool b => b
  | .vlist xs => !xs.isEmpty
  | .vdict kvs => !kvs.isEmpty
  | .vnone => false

/-- First value bound to `key` in a dict body, or the default (`dict.get`). -/
def dictGet (kvs : List (String × PyVal)) (key : String) (dflt : PyVal) : PyVal :=
  match kvs.find? (fun kv => kv.1 == key) with
  | some kv => kv.2
  | none => dflt

/-- `x.get(key, dflt)`: succeeds on dicts, raises `AttributeError` otherwise. -/
def PyVal.get : PyVal → String → PyVal → Except String PyVal
  | .vdict kvs, key, dflt => .ok (dictGet kvs key dflt)
  | _, _, _ => .error "AttributeError: get"

/-- Python `for _ in x`: lists yield their elements, strings their characters,
dicts their keys; anything else raises `TypeError`. -/
def pyIter : PyVal → Except String (List PyVal)
  | .vlist xs => .ok xs
  | .vstr s => .ok (s.toList.map (fun c => .vstr (String.singleton c)))
  | .vdict kvs => .ok (kvs.map (fun kv => .vstr kv.1))
  | _ => .error "TypeError: not iterable"

/-- Whether `pat` matches at the head of the character list `s`. -/
def matchHere : List Char → List Char → Bool
  | [], _ => true
  | _ :: _, [] => false
  | p :: ps, c :: cs => p == c && matchHere ps cs

/-- Whether `pat` occurs anywhere in the character list `s`. -/
def occursIn : List Char → List Char → Bool
  | pat, [] => matchHere pat []
  | pat, c :: cs => matchHere pat (c :: cs) || occursIn pat cs

/-- Python substring test `pat in s`. -/
def containsSub (s pat : String) : Bool :=
  occursIn pat.data s.data

/-- Python `str.lower()` on the ASCII range (the only range the source
compares against). -/
def strLower (s : String) : String := String.mk (s.data.map Char.toLower)

/-- `x.lower()`: succeeds on strings, raises `AttributeError` otherwise. -/
def pyLower : PyVal → Except String String
  | .vstr s => .ok (strLower s)
  | _ => .error "AttributeError: lower"

/-- One left-to-right, non-overlapping removal scan of Python
`s.replace(pat, "")`, fuelled by the string length for structural
termination (the fuel never runs out for a non-empty pattern). -/
def removeAllFuel : Nat → List Char → List Char → List Char
  | 0, _, _ => []
  | _, _, [] => []
  | fuel + 1, pat, c :: cs =>
    if matchHere pat (c :: cs) then removeAllFuel fuel pat ((c :: cs).drop pat.length)
    else c :: removeAllFuel fuel pat cs

/-- Python `s.replace(pat, "")` for a non-empty pattern. -/
def removeAll (s pat : String) : String :=
  String.mk (removeAllFuel (s.data.length + 1) pat.data s.data)

/-- Drop leading whitespace characters. -/
def dropLeadingWs : List Char → List Char
  | [] => []
  | c :: cs => if c.isWhitespace then dropLeadingWs cs else c :: cs

/-- Python `s.strip()`: leading and trailing whitespace removed. -/
def pyStrip (s : String) : String :=
  String.mk ((dropLeadingWs ((dropLeadingWs s.data).reverse)).reverse)

/-- The whitespace-separated tokens of a string, empty tokens dropped
(`acc` holds the current token reversed). -/
def wsTokens : List Char → List Char → List String
  | acc, [] => if acc.isEmpty then [] else [String.mk acc.reverse]
  | acc, c :: cs =>
    if c.isWhitespace then
      if acc.isEmpty then wsTokens [] cs
      else String.mk acc.reverse :: wsTokens [] cs
    else wsTokens (c :: acc) cs

/-- A single quote character, used by `pyRepr`. -/
def squote : String := String.singleton (Char.ofNat 39)

mutual
/-- Python `repr` of a value (embedded quotes in nested strings are not
escaped; the integration never nests such values). -/
def pyRepr : PyVal → String
  | .vstr s => squote ++ s ++ squote
  | .vint n => toString n
  | .vbool b => if b then "True" else "False"
  | .vlist xs => "[" ++ String.intercalate ", " (pyReprList xs) ++ "]"
  | .vdict kvs => "\x7b" ++ String.intercalate ", " (pyReprKVs kvs) ++ "\x7d"
  | .vnone => "None"

def pyReprList : List PyVal → List String
  | [] => []
  | x :: xs => pyRepr x :: pyReprList xs

def pyReprKVs : List (String × PyVal) → List String
  | [] => []
  | kv :: kvs => (squote ++ kv.1 ++ squote ++ ": " ++ pyRepr kv.2) :: pyReprKVs kvs
end

/-- Python `str(x)`, as used by an f-string interpolation. -/
def pyStr : PyVal → String
  | .vstr s => s
  | v => pyRepr v

/-- Whether a value is a Python `str`. -/
def PyVal.isStr : PyVal → Bool
  | .vstr _ => true
  | _ => false

/-- The underlying string of a `str` value (unused default otherwise). -/
def PyVal.asStr : PyVal → String
  | .vstr s => s
  | _ => ""

/-- Python `" ".join(parts)`: raises `TypeError` unless every part is a str. -/
def pyJoinSpace (parts : List PyVal) : Except String String :=
  if parts.all PyVal.isStr then
    .ok (String.intercalate " " (parts.map PyVal.asStr))
  else .error "TypeError: join"

/-- Python `a or b` on values. -/
def pyOr (a b : PyVal) : PyVal := if a.truthy then a else b

/-- One segment of a journey (`JourneyLeg` dataclass in `api.py`).
`description` and `service_code` are kept as dynamic values because the
source stores whatever the payload supplied. -/
structure JourneyLeg where
  type : String
  description : PyVal
  service_code : PyVal
deriving Repr, BEq

/-- One candidate trip (`JourneyOption` dataclass in `api.py`). -/
structure JourneyOption where
  leave_time : PyVal
  arrive_time : PyVal
  travel_time : PyVal
  legs : List JourneyLeg
  index : PyVal
deriving Repr, BEq

/-- Per-route fetch result (`JourneyData` dataclass in `api.py`). -/
structure JourneyData where
  options : List JourneyOption
  from_location : String
  to_location : String
  date : String
  time : String
deriving Repr, BEq

/-- Leg-type classification of `_parse_json_journey_options` (api.py:320-331):
`trip_vehicle == k or k in display_title.lower()` tested level by level for
walk, bus, train, ferry, then `cat` on the title alone, defaulting to walk.
`display_title.lower()` is evaluated lazily: when `trip_vehicle == "walk"`
short-circuits the first test, the title is never lowered here. -/
def classifyE (trip_vehicle : String) (display_title : PyVal) : Except String String :=
  if trip_vehicle == "walk" then .ok "walk"
  else
    match pyLower display_title with
    | .error e => .error e
    | .ok dtl =>
      .ok (if containsSub dtl "walk" then "walk"
        else if trip_vehicle == "bus" || containsSub dtl "bus" then "bus"
        else if trip_vehicle == "train" || containsSub dtl "train" then "train"
        else if trip_vehicle == "ferry" || containsSub dtl "ferry" then "ferry"
        else if containsSub dtl "cat" then "cat"
        else "walk")

/-- Title clean-up in the description build (api.py:339):
`display_title.replace("Catch ", "").replace("Walk to ", "").replace("Walk ", "")`;
raises unless the title is a string. -/
def pyReplace3 : PyVal → Except String String
  | .vstr s => .ok (removeAll (removeAll (removeAll s "Catch ") "Walk to ") "Walk ")
  | _ => .error "AttributeError: replace"

/-- The description build of `_parse_json_journey_options` (api.py:333-344):
collect the parts list (truthy route code, cleaned title, parenthesized
duration, in that order), join with single spaces, or fall back to
`display_title or trip_vehicle` when no part qualified. -/
def buildDescription (route_code display_title display_duration : PyVal)
    (trip_vehicle : String) : Except String PyVal := do
  let parts0 : List PyVal := if route_code.truthy then [route_code] else []
  let parts1 ←
    if display_title.truthy then do
      let t ← pyReplace3 display_title
      pure (parts0 ++ [PyVal.vstr t])
    else pure parts0
  let parts2 :=
    if display_duration.truthy then
      parts1 ++ [PyVal.vstr ("(" ++ pyStr display_duration ++ ")")]
    else parts1
  if !parts2.isEmpty then do
    let j ← pyJoinSpace parts2
    pure (PyVal.vstr j)
  else pure (pyOr display_title (.vstr trip_vehicle))

/-- Parse of one `JnyTripDetails` entry into a `JourneyLeg`
(api.py:313-352), in source evaluation order; any raise propagates. -/
def parseTrip (trip : PyVal) : Except String JourneyLeg := do
  let tvRaw ← trip.get "TripVehicle" (.vstr "")
  let trip_vehicle ← pyLower tvRaw
  let route_code ← trip.get "RouteCode" .vnone
  let display_title ← trip.get "DisplayTripTitle" (.vstr "")
  let display_duration ← trip.get "DisplayTripDuration" (.vstr "")
  let leg_type ← classifyE trip_vehicle display_title
  let description ← buildDescription route_code display_title display_duration trip_vehicle
  pure { type := leg_type, description := description, service_code := route_code }

/-- The leg loop `for trip in trip_details` (api.py:313-352): legs are
parsed left to right and the first raise aborts the loop. -/
def mapME {α β : Type} (f : α → Except String β) : List α → Except String (List β)
  | [] => .ok []
  | x :: xs =>
    match f x with
    | .error e => .error e
    | .ok y =>
      match mapME f xs with
      | .error e => .error e
      | .ok ys => .ok (y :: ys)

/-- Parse of one journey entry into a `JourneyOption` (api.py:302-362, the
body of the per-journey `try`); a raise anywhere in it, legs included,
propagates to the per-journey handler. -/
def parseJourney (journey : PyVal) : Except String JourneyOption := do
  let leave_time ← journey.get "JnyDisplayDepartTime" (.vstr "")
  let arrive_time ← journey.get "JnyDisplayArriveTime" (.vstr "")
  let travel_time ← journey.get "JnyDuration" (.vstr "")
  let journey_number ← journey.get "JnyNumber" (.vint 0)
  let trip_details ← journey.get "JnyTripDetails" (.vlist [])
  let trips ← pyIter trip_details
  let legs ← mapME parseTrip trips
  pure { leave_time := leave_time, arrive_time := arrive_time,
         travel_time := travel_time, legs := legs, index := journey_number }

/-- `TransperthAPI._parse_json_journey_options` (api.py:290-368): each
journey entry is parsed inside `try/except Exception: continue`, so a
raising entry is skipped whole and the loop goes on. -/
def parse_json_journey_options : List PyVal → List JourneyOption
  | [] => []
  | j :: rest =>
    match parseJourney j with
    | .ok opt => opt :: parse_json_journey_options rest
    | .error _ => parse_json_journey_options rest

/-- Python dict update `d[k] = v`: overwrite in place if the key exists
(keys are unique in a dict), append otherwise (insertion order preserved). -/
def dset {α : Type} : List (String × α) → String → α → List (String × α)
  | [], k, v => [(k, v)]
  | kv :: rest, k, v =>
    if kv.1 == k then (k, v) :: rest else kv :: dset rest k v

/-- Python dict read `d[k]` as an option. -/
def dlookup {α : Type} (d : List (String × α)) (k : String) : Option α :=
  (d.find? (fun kv => kv.1 == k)).map (fun kv => kv.2)

/-- The blank test of the validation block (api.py:167-174):
`not s or not s.strip()`. -/
def isBlank (s : String) : Bool := s.isEmpty || (pyStrip s).isEmpty

/-- The initial JSON body literal of `get_journey_options` (api.py:180-189). -/
def basePayload (from_location from_type from_position
    to_location to_type to_position date time : String) : List (String × PyVal) :=
  [("FromLocationName", .vstr (pyStrip from_location)),
   ("FromLocationType", .vstr (if !from_type.isEmpty then pyStrip from_type else "psma_addresses")),
   ("FromLocationPosition", .vstr (pyStrip from_position)),
   ("ToLocationName", .vstr (pyStrip to_location)),
   ("ToLocationType", .vstr (if !to_type.isEmpty then pyStrip to_type else "psma_addresses")),
   ("ToLocationPosition", .vstr (pyStrip to_position)),
   ("JourneyDate", .vstr (if !date.isEmpty then pyStrip date else "")),
   ("JourneyTime", .vstr (if !time.isEmpty then pyStrip time else ""))]

/-- The optional locality fields (api.py:192-195). -/
def addLocalities (p : List (String × PyVal)) (from_locality to_locality : String) :
    List (String × PyVal) :=
  let p1 :=
    if !from_locality.isEmpty && !(pyStrip from_locality).isEmpty then
      dset p "FromLocationLocality" (.vstr (pyStrip from_locality))
    else p
  if !to_locality.isEmpty && !(pyStrip to_locality).isEmpty then
    dset p1 "ToLocationLocality" (.vstr (pyStrip to_locality))
  else p1

/-- The four transport-mode flags (api.py:198-201): membership tests on
`transport_options or []`. -/
def setTransportFlags (p : List (String × PyVal)) (topts : List String) :
    List (String × PyVal) :=
  dset (dset (dset (dset p
    "TransportBus" (.vbool (topts.contains "bus")))
    "TransportTrain" (.vbool (topts.contains "train")))
    "TransportFerry" (.vbool (topts.contains "ferry")))
    "TransportSchoolBus" (.vbool (topts.contains "school_bus"))

/-- The transport block of the payload (api.py:197-206): set the four
flags, then if none of them reads back true, default bus and train on. -/
def addTransport (p : List (String × PyVal)) (transport_options : Option (List String)) :
    List (String × PyVal) :=
  let topts := transport_options.getD []
  let p6 := setTransportFlags p topts
  let anyMode :=
    (dictGet p6 "TransportBus" .vnone).truthy ||
    (dictGet p6 "TransportTrain" .vnone).truthy ||
    (dictGet p6 "TransportFerry" .vnone).truthy ||
    (dictGet p6 "TransportSchoolBus" .vnone).truthy
  if !anyMode then
    dset (dset p6 "TransportBus" (.vbool true)) "TransportTrain" (.vbool true)
  else p6

/-- The trailing payload fields (api.py:208-229): walk speed, max
connections, max walking distance, and the fixed notes/journeys fields. -/
def addTail (p : List (String × PyVal)) (walk_speed : String)
    (max_connections : Option Int) (max_walking_distance : Option String) :
    List (String × PyVal) :=
  let p8 := dset p "WalkSpeed"
    (.vstr (if walk_speed == "slow" then "SLOW"
      else if walk_speed == "normal" then "NORMAL"
      else if walk_speed == "fast" then "FAST"
      else "NORMAL"))
  let p9 := dset p8 "MaxConnections"
    (.vstr (match max_connections with
      | some n => toString n
      | none => "-1"))
  let p10 := dset p9 "MaxWalkingDistance"
    (.vstr (match max_walking_distance with
      | some s => if !s.isEmpty then pyStrip (removeAll (removeAll s "m") "M") else "2000"
      | none => "2000"))
  let p11 := dset p10 "ReturnNotes" (.vbool true)
  let p12 := dset p11 "ReturnNoteCodes" (.vstr "DV,LM,CM,JC,TC,BG,FG,LK")
  dset p12 "MaxJourneys" (.vstr "5")

/-- The JSON request body built by `get_journey_options` (api.py:179-229),
assembled stage by stage in source order. -/
def buildPayload (from_location from_type from_position from_locality
    to_location to_type to_position to_locality date time : String)
    (transport_options : Option (List String)) (walk_speed : String)
    (max_connections : Option Int) (max_walking_distance : Option String) :
    List (String × PyVal) :=
  addTail
    (addTransport
      (addLocalities
        (basePayload from_location from_type from_position
          to_location to_type to_position date time)
        from_locality to_locality)
      transport_options)
    walk_speed max_connections max_walking_distance

/-- An outbound HTTP request of `get_journey_options`: the session-token
priming GET of the landing page and the journey POST. -/
inductive NetCall where
  | landingGet
  | journeyPost
deriving Repr, BEq, DecidableEq

/-- Request-side semantics of `TransperthAPI.get_journey_options`
(api.py:126-256): the validation block runs first (in source order), then
the priming GET (`_get_session_tokens`, which never raises out), then the
POST of `buildPayload`. Returns the trace of network calls issued together
with either the raised `ValueError` or the payload handed to the POST;
response handling is modelled separately by `parse_json_journey_options`. -/
def get_journey_options_send (from_location from_type from_position from_locality
    to_location to_type to_position to_locality date time departure_option : String)
    (transport_options : Option (List String)) (walk_speed : String)
    (max_connections : Option Int) (max_walking_distance : Option String) :
    List NetCall × Except String (List (String × PyVal)) :=
  if isBlank from_location then ([], .error "ValueError: from_location is required")
  else if isBlank to_location then ([], .error "ValueError: to_location is required")
  else if isBlank from_position then ([], .error "ValueError: from_position is required")
  else if isBlank to_position then ([], .error "ValueError: to_position is required")
  else
    ([.landingGet, .journeyPost],
     .ok (buildPayload from_location from_type from_position from_locality
       to_location to_type to_position to_locality date time
       transport_options walk_speed max_connections max_walking_distance))

/-- Per-route request template (`RouteConfig` dataclass, coordinator.py:36-55). -/
structure RouteConfig where
  name : String
  from_location : String
  from_type : String
  from_position : String
  from_locality : String
  to_location : String
  to_type : String
  to_position : String
  to_locality : String
  date : String
  time : String
  departure_option : String
  transport_options : List String
  walk_speed : String
  max_connections : Option Int
  max_walking_distance : Option String
deriving Repr, BEq

/-- The per-cycle snapshot (`TransperthJourneyData` dataclass,
coordinator.py:58-62): a dict from route name to `JourneyData`. -/
structure TransperthJourneyData where
  routes : List (String × JourneyData)
deriving Repr, BEq

/-- Date/time resolution in the poll loop (coordinator.py:133-134):
`route_config.date or self._get_default_date()`. The poll-time default is
substituted only when the configured string is empty (Python falsy); any
other string, the literal "today" included, passes through unchanged. -/
def resolveOrDefault (configured atPoll : String) : String :=
  if configured.isEmpty then atPoll else configured

/-- The route loop of `async_update_data` (coordinator.py:129-165) over an
accumulating `routes_data` dict. The `fetch` oracle abstracts the executor
call to `self.api.get_journey_options`: it receives the route's config and
the resolved date and time, and either returns `JourneyData` or raises
(`Except.error`); on a raise the route is skipped (`continue`). -/
def updateLoop (fetch : RouteConfig → String → String → Except String JourneyData)
    (nowDate nowTime : String) (acc : List (String × JourneyData)) :
    List (String × RouteConfig) → List (String × JourneyData)
  | [] => acc
  | (route_name, route_config) :: rest =>
    match fetch route_config (resolveOrDefault route_config.date nowDate)
        (resolveOrDefault route_config.time nowTime) with
    | .ok journey_data =>
      updateLoop fetch nowDate nowTime (dset acc route_name journey_data) rest
    | .error _ => updateLoop fetch nowDate nowTime acc rest

/-- `TransperthJourneyCoordinator.async_update_data` (coordinator.py:121-167):
runs the route loop over the registry starting from an empty dict and
returns the assembled snapshot; it catches every per-route exception, so it
never raises. -/
def async_update_data (routes : List (String × RouteConfig)) (nowDate nowTime : String)
    (fetch : RouteConfig → String → String → Except String JourneyData) :
    TransperthJourneyData :=
  { routes := updateLoop fetch nowDate nowTime [] routes }

/-- The success path of `get_journey_options` as seen by the coordinator
(api.py:271-277): the returned `JourneyData` echoes the `date` and `time`
arguments it was called with, so the snapshot records the literal strings
passed down. `optionsOf` abstracts the parsed upstream response. -/
def fetchEcho (optionsOf : RouteConfig → List JourneyOption)
    (cfg : RouteConfig) (date time : String) : Except String JourneyData :=
  .ok { options := optionsOf cfg, from_location := cfg.from_location,
        to_location := cfg.to_location, date := date, time := time }

/-- A parsed HTML node as BeautifulSoup exposes it: an element with a tag
name, attributes and children, or a text fragment. -/
inductive HtmlNode where
  | element : String → List (String × String) → List HtmlNode → HtmlNode
  | textNode : String → HtmlNode
deriving Repr, BEq

/-- Whether a node is an element with the given tag name. -/
def isTag (n : HtmlNode) (t : String) : Bool :=
  match n with
  | .element tag _ _ => tag == t
  | .textNode _ => false

/-- An element's attribute value, if any. -/
def attrOf (n : HtmlNode) (k : String) : Option String :=
  match n with
  | .element _ attrs _ => (attrs.find? (fun kv => kv.1 == k)).map (fun kv => kv.2)
  | .textNode _ => none

/-- The whitespace-separated tokens of an element's `class` attribute
(BeautifulSoup's multi-valued class list; `[]` when absent). -/
def classTokens (n : HtmlNode) : List String :=
  match attrOf n "class" with
  | some v => wsTokens [] v.data
  | none => []

/-- BeautifulSoup's `class_=tok` filter: the class list contains the token. -/
def hasClassToken (n : HtmlNode) (tok : String) : Bool :=
  (classTokens n).contains tok

/-- An element's direct children (`recursive=False` searches). -/
def childrenOf : HtmlNode → List HtmlNode
  | .element _ _ cs => cs
  | .textNode _ => []

mutual
/-- All proper descendants of a node in document (pre-)order, the order in
which BeautifulSoup's `find`/`find_all` visit them. -/
def descendants : HtmlNode → List HtmlNode
  | .element _ _ cs => descendantsList cs
  | .textNode _ => []

def descendantsList : List HtmlNode → List HtmlNode
  | [] => []
  | c :: rest => c :: (descendants c ++ descendantsList rest)
end

/-- `tag.find(...)`: the first descendant satisfying the filter. -/
def findIn (root : HtmlNode) (p : HtmlNode → Bool) : Option HtmlNode :=
  (descendants root).find? p

mutual
/-- `tag.get_text()`: concatenation of all text fragments in order. -/
def getText : HtmlNode → String
  | .element _ _ cs => getTextList cs
  | .textNode s => s

def getTextList : List HtmlNode → String
  | [] => ""
  | c :: rest => getText c ++ getTextList rest
end

mutual
/-- `tag.get_text(strip=True)`: each text fragment is stripped before the
(empty-separator) join. -/
def getTextStrip : HtmlNode → String
  | .element _ _ cs => getTextStripList cs
  | .textNode s => pyStrip s

def getTextStripList : List HtmlNode → String
  | [] => ""
  | c :: rest => getTextStrip c ++ getTextStripList rest
end

/-- The tail `:\d\x7b2\x7d(?:am|pm)` of the leave-time pattern, matched at
the head of the character list. -/
def timeSuffix : List Char → Option (List Char)
  | c :: m1 :: m2 :: a :: b :: _ =>
    if c == ':' && m1.isDigit && m2.isDigit && ((a == 'a' || a == 'p') && b == 'm') then
      some [c, m1, m2, a, b]
    else none
  | _ => none

/-- One anchored attempt of the pattern `\d\x7b1,2\x7d:\d\x7b2\x7d(?:am|pm)`
(api.py:424): the greedy two-digit hour is tried before the one-digit one. -/
def timeAt : List Char → Option (List Char)
  | [] => none
  | d1 :: rest1 =>
    if d1.isDigit then
      match rest1 with
      | d2 :: rest2 =>
        if d2.isDigit then
          match timeSuffix rest2 with
          | some m => some (d1 :: d2 :: m)
          | none =>
            match timeSuffix rest1 with
            | some m => some (d1 :: m)
            | none => none
        else
          match timeSuffix rest1 with
          | some m => some (d1 :: m)
          | none => none
      | [] => none
    else none

/-- `re.search` of the leave-time pattern: leftmost match wins. -/
def searchTime : List Char → Option String
  | [] => none
  | c :: rest =>
    match timeAt (c :: rest) with
    | some m => some (String.mk m)
    | none => searchTime rest

/-- Table location in `_parse_journey_options` (api.py:382-393): by id
`jrne-opt-tbl`, then by class `jrne-opt-tbl`, then the first table whose
caption text contains "Journey Options". -/
def findTable (soup : HtmlNode) : Option HtmlNode :=
  match findIn soup (fun n => isTag n "table" && attrOf n "id" == some "jrne-opt-tbl") with
  | some t => some t
  | none =>
    match findIn soup (fun n => isTag n "table" && hasClassToken n "jrne-opt-tbl") with
    | some t => some t
    | none =>
      ((descendants soup).filter (fun n => isTag n "table")).find? (fun tbl =>
        match findIn tbl (fun n => isTag n "caption") with
        | some caption => containsSub (getText caption) "Journey Options"
        | none => false)

/-- Parse of one `li` leg item (api.py:446-485): icon class tokens decide
the type (default walk), the first span's stripped text is the description,
a `tp-service-code` div supplies the service code. -/
def parseLegItem (leg_item : HtmlNode) : JourneyLeg :=
  let leg_type :=
    match findIn leg_item (fun n => isTag n "i") with
    | some icon =>
      let icon_class := String.intercalate " " (classTokens icon)
      if containsSub icon_class "icon-walk" then "walk"
      else if containsSub icon_class "icon-bus-circ" then "bus"
      else if containsSub icon_class "icon-train-circ" then "train"
      else if containsSub icon_class "icon-ferry" then "ferry"
      else if containsSub icon_class "icon-cat" then "cat"
      else "walk"
    | none => "walk"
  let description :=
    match findIn leg_item (fun n => isTag n "span") with
    | some s => getTextStrip s
    | none => ""
  let service_code : PyVal :=
    match findIn leg_item (fun n => isTag n "div" && hasClassToken n "tp-service-code") with
    | some d => .vstr (getTextStrip d)
    | none => .vnone
  { type := leg_type, description := .vstr description, service_code := service_code }

/-- Parse of one table row (api.py:416-495) at its 1-based `enumerate`
index: leave time via the regex with raw-text fallback, arrive and travel
times as stripped text, legs from the `itemRoute` ordered list. -/
def parseRow (idx : Nat) (row : HtmlNode) : JourneyOption :=
  let leave_time :=
    match findIn row (fun n => isTag n "td" && hasClassToken n "itemLeave") with
    | some leave_cell =>
      let leave_text := getTextStrip leave_cell
      match searchTime leave_text.toList with
      | some m => m
      | none => pyStrip leave_text
    | none => ""
  let arrive_time :=
    match findIn row (fun n => isTag n "td" && hasClassToken n "itemArrive") with
    | some c => getTextStrip c
    | none => ""
  let travel_time :=
    match findIn row (fun n => isTag n "td" && hasClassToken n "itemTime") with
    | some c => getTextStrip c
    | none => ""
  let legs :=
    match findIn row (fun n => isTag n "td" && hasClassToken n "itemRoute") with
    | some route_cell =>
      match findIn route_cell (fun n => isTag n "ol") with
      | some leg_list =>
        ((childrenOf leg_list).filter (fun n => isTag n "li")).map parseLegItem
      | none => []
    | none => []
  { leave_time := .vstr leave_time, arrive_time := .vstr arrive_time,
    travel_time := .vstr travel_time, legs := legs, index := .vint idx }

/-- The `enumerate(journey_rows, start=1)` loop (api.py:416). -/
def parseRows : Nat → List HtmlNode → List JourneyOption
  | _, [] => []
  | idx, r :: rest => parseRow idx r :: parseRows (idx + 1) rest

/-- `TransperthAPI._parse_journey_options` (api.py:370-501): locate the
results table (else log errors and return no options), find its tbody,
take the direct `tr` children and parse each row at its 1-based index. -/
def parse_journey_options (soup : HtmlNode) : List JourneyOption :=
  match findTable soup with
  | none => []
  | some table =>
    match findIn table (fun n => isTag n "tbody") with
    | none => []
    | some tbody =>
      let journey_rows := (childrenOf tbody).filter (fun n => isTag n "tr")
      if journey_rows.isEmpty then []
      else parseRows 1 journey_rows

/-- Whether an `Except` computation succeeded (did not raise). -/
def exceptOk {α : Type} : Except String α → Bool
  | .ok _ => true
  | .error _ => false

/-- Modelled from the claim wording of C3 (for comparison with the code):
the vehicle-kind field is checked first and decides on its own whenever it
names a kind; only when it does not decide is the title consulted, with
precedence walk > bus > train > ferry > cat and default walk. -/
def classifyVehicleFirstSpec (trip_vehicle title : String) : String :=
  if trip_vehicle == "walk" then "walk"
  else if trip_vehicle == "bus" then "bus"
  else if trip_vehicle == "train" then "train"
  else if trip_vehicle == "ferry" then "ferry"
  else
    let dtl := strLower title
    if containsSub dtl "walk" then "walk"
    else if containsSub dtl "bus" then "bus"
    else if containsSub dtl "train" then "train"
    else if containsSub dtl "ferry" then "ferry"
    else if containsSub dtl "cat" then "cat"
    else "walk"

/-- Modelled from the amended claim of C3: classification walks the
precedence levels walk, bus, train, ferry, cat, and a level matches if the
vehicle-kind field equals that kind or the lowercased title contains its
keyword; the default is walk. -/
def classifyLevelsSpec (trip_vehicle title : String) : String :=
  let dtl := strLower title
  if trip_vehicle == "walk" || containsSub dtl "walk" then "walk"
  else if trip_vehicle == "bus" || containsSub dtl "bus" then "bus"
  else if trip_vehicle == "train" || containsSub dtl "train" then "train"
  else if trip_vehicle == "ferry" || containsSub dtl "ferry" then "ferry"
  else if containsSub dtl "cat" then "cat"
  else "walk"

/-- Strip `pat` from the front of `t` when it starts with it. -/
def stripOneLeading (pat t : String) : String :=
  if matchHere pat.data t.data then String.mk (t.data.drop pat.data.length) else t

/-- Modelled from the claim wording of C7 (for comparison with the code):
the title with a leading "Catch ", "Walk to " or "Walk " prefix stripped. -/
def stripLeadingPrefixesSpec (t : String) : String :=
  stripOneLeading "Walk " (stripOneLeading "Walk to " (stripOneLeading "Catch " t))

/-- Modelled from the amended claim of C7: every occurrence of "Catch ",
then "Walk to ", then "Walk " is removed from the title, not only a
leading prefix. -/
def removeAllOccurrencesSpec (t : String) : String :=
  removeAll (removeAll (removeAll t "Catch ") "Walk to ") "Walk "

/-- Modelled from the amended claim of C7: the description is the
space-join of the non-empty route code, the cleaned title and the
parenthesized duration, in that order, falling back to the raw title or
the (lowercased) vehicle-kind string when no part qualifies. -/
def buildDescriptionSpec (code title dur trip_vehicle : String) : String :=
  let parts :=
    (if code.isEmpty then [] else [code]) ++
    (if title.isEmpty then [] else [removeAllOccurrencesSpec title]) ++
    (if dur.isEmpty then [] else ["(" ++ dur ++ ")"])
  if parts.isEmpty then (if title.isEmpty then trip_vehicle else title)
  else String.intercalate " " parts

/-- A trip-details entry whose four relevant fields are strings. -/
def mkTrip (tv code title dur : String) : PyVal :=
  .vdict [("TripVehicle", .vstr tv), ("RouteCode", .vstr code),
          ("DisplayTripTitle", .vstr title), ("DisplayTripDuration", .vstr dur)]

/-- The description-building example of the spec: title "Catch Bus 276",
route code "276", duration "12 mins", vehicle "Bus". -/
def exTrip276 : PyVal := mkTrip "Bus" "276" "Catch Bus 276" "12 mins"

/-- A trip entry whose title has an interior (non-leading) "Catch ". -/
def interiorCatchTrip : PyVal :=
  .vdict [("DisplayTripTitle", .vstr "A Catch B")]

/-- A journey entry that parses cleanly (its `JnyNumber` is 1). -/
def wellFormedJourney : PyVal := .vdict [("JnyNumber", .vint 1)]

/-- A journey entry with two legs of which the first raises while parsing:
its `TripVehicle` is an int, so `.lower()` raises `AttributeError`. -/
def badLegJourney : PyVal :=
  .vdict [("JnyNumber", .vint 2),
          ("JnyTripDetails", .vlist [.vdict [("TripVehicle", .vint 5)], .vdict []])]

/-- A journey entry carrying `JnyNumber` 7 and no trips. -/
def journeyNumbered7 : List (String × PyVal) := [("JnyNumber", .vint 7)]

/-- A route configuration template for concrete scenarios. -/
def mkRoute (nm fl tl dt : String) : RouteConfig :=
  { name := nm, from_location := fl, from_type := "", from_position := "-31.95,115.85",
    from_locality := "", to_location := tl, to_type := "", to_position := "-31.96,115.86",
    to_locality := "", date := dt, time := "08:00", departure_option := "leave_after",
    transport_options := ["bus", "train"], walk_speed := "normal",
    max_connections := none, max_walking_distance := none }

/-- A route whose configured date is the relative sentinel "today". -/
def todayRoute : RouteConfig := mkRoute "work" "Home" "Office" "today"

/-- A fetch oracle for the three-route scenario: route B's transport call
raises a timeout, every other route succeeds (echoing its arguments). -/
def fetchBFails (cfg : RouteConfig) (date time : String) : Except String JourneyData :=
  if cfg.name == "B" then .error "requests.Timeout"
  else fetchEcho (fun _ => []) cfg date time

/-- An HTML document with no table element at all. -/
def noTableDoc : HtmlNode :=
  .element "html" [] [.element "div" [("class", "content")] [.textNode "Nothing here"]]

/-- A results page whose journey table has two rows. -/
def rowsDoc : HtmlNode :=
  .element "html" [] [
    .element "table" [("id", "jrne-opt-tbl")] [
      .element "tbody" [] [
        .element "tr" [] [.element "td" [("class", "itemLeave")] [.textNode "9:15am"]],
        .element "tr" [] [.element "td" [("class", "itemLeave")] [.textNode "9:45am"]]]]]

/-- The three-route registry of the orchestrator scenario. -/
def threeRoutes : List (String × RouteConfig) :=
  [("A", mkRoute "A" "HomeA" "WorkA" ""),
   ("B", mkRoute "B" "HomeB" "WorkB" ""),
   ("C", mkRoute "C" "HomeC" "WorkC" "")]


theorem dlookup_dset_self {α : Type} (k : String) (v : α) :
    ∀ (d : List (String × α)), dlookup (dset d k v) k = some v
  | [] => by simp [dset, dlookup]
  | kv :: rest => by
    by_cases h : (kv.1 == k) = true
    · simp [dset, dlookup, h]
    · have h2 : (kv.1 == k) = false := by simpa using h
      have ih := dlookup_dset_self k v rest
      simp only [dset, h2, Bool.false_eq_true, if_false]
      simpa [dlookup, List.find?_cons, h2] using ih

theorem dlookup_dset_ne {α : Type} (k k2 : String) (v : α) (hne : k2 ≠ k) :
    ∀ (d : List (String × α)), dlookup (dset d k v) k2 = dlookup d k2
  | [] => by
    have : (k == k2) = false := by
      simp only [beq_eq_false_iff_ne, ne_eq]
      exact fun hh => hne hh.symm
    simp [dset, dlookup, this]
  | kv :: rest => by
    have hk2 : (k == k2) = false := by
      simp only [beq_eq_false_iff_ne, ne_eq]
      exact fun hh => hne hh.symm
    by_cases h : (kv.1 == k) = true
    · have h1 : kv.1 = k := by simpa using h
      have h3 : (kv.1 == k2) = false := by
        simp only [h1, beq_eq_false_iff_ne, ne_eq]
        exact fun hh => hne hh.symm
      simp [dset, dlookup, h, hk2, h3, List.find?_cons]
    · have h2 : (kv.1 == k) = false := by simpa using h
      have ih := dlookup_dset_ne k k2 v hne rest
      by_cases hp : (kv.1 == k2) = true
      · simp [dset, dlookup, h2, List.find?_cons, hp]
      · have hp2 : (kv.1 == k2) = false := by simpa using hp
        simp only [dset, h2, Bool.false_eq_true, if_false]
        simpa [dlookup, List.find?_cons, hp2] using ih

theorem updateLoop_lookup_of_not_mem
    (fetch : RouteConfig → String → String → Except String JourneyData)
    (nowDate nowTime : String) (n : String) :
    ∀ (rest : List (String × RouteConfig)) (acc : List (String × JourneyData)),
      n ∉ rest.map Prod.fst →
      dlookup (updateLoop fetch nowDate nowTime acc rest) n = dlookup acc n
  | [], acc, _ => rfl
  | (m, c) :: rest, acc, h => by
    have h2 : n ≠ m ∧ n ∉ rest.map Prod.fst := by
      simpa [not_or] using h
    simp only [updateLoop]
    cases hf : fetch c (resolveOrDefault c.date nowDate) (resolveOrDefault c.time nowTime) with
    | ok jd =>
      rw [updateLoop_lookup_of_not_mem fetch nowDate nowTime n rest (dset acc m jd) h2.2]
      exact dlookup_dset_ne m n jd h2.1 acc
    | error e =>
      exact updateLoop_lookup_of_not_mem fetch nowDate nowTime n rest acc h2.2

theorem updateLoop_lookup_mem
    (fetch : RouteConfig → String → String → Except String JourneyData)
    (nowDate nowTime : String) :
    ∀ (rest : List (String × RouteConfig)) (acc : List (String × JourneyData))
      (n : String) (c : RouteConfig),
      (rest.map Prod.fst).Nodup → (n, c) ∈ rest →
      dlookup (updateLoop fetch nowDate nowTime acc rest) n =
        match fetch c (resolveOrDefault c.date nowDate) (resolveOrDefault c.time nowTime) with
        | .ok jd => some jd
        | .error _ => dlookup acc n
  | [], _, _, _, _, hmem => by simp at hmem
  | (m, c0) :: rest, acc, n, c, hnd, hmem => by
    have hnd2 : m ∉ rest.map Prod.fst ∧ (rest.map Prod.fst).Nodup := by
      simpa using hnd
    rcases List.mem_cons.mp hmem with hhd | htl
    · have hm : m = n := by
        have := congrArg Prod.fst hhd
        simpa using this.symm
      have hc : c = (m, c0).2 := congrArg Prod.snd hhd
      subst hm
      simp only [updateLoop]
      cases hf : fetch c0 (resolveOrDefault c0.date nowDate) (resolveOrDefault c0.time nowTime) with
      | ok jd =>
        rw [updateLoop_lookup_of_not_mem fetch nowDate nowTime m rest (dset acc m jd) hnd2.1]
        rw [dlookup_dset_self m jd acc]
        simp only [hc] at hf ⊢
        rw [hf]
      | error e =>
        rw [updateLoop_lookup_of_not_mem fetch nowDate nowTime m rest acc hnd2.1]
        simp only [hc] at hf ⊢
        rw [hf]
    · have hm : n ≠ m := by
        intro hEq
        subst hEq
        exact hnd2.1 (List.mem_map.mpr ⟨(n, c), htl, rfl⟩)
      simp only [updateLoop]
      cases hf : fetch c0 (resolveOrDefault c0.date nowDate) (resolveOrDefault c0.time nowTime) with
      | ok jd =>
        rw [updateLoop_lookup_mem fetch nowDate nowTime rest (dset acc m jd) n c hnd2.2 htl]
        cases fetch c (resolveOrDefault c.date nowDate) (resolveOrDefault c.time nowTime) with
        | ok jd2 => rfl
        | error e2 => exact dlookup_dset_ne m n jd hm acc
      | error e =>
        exact updateLoop_lookup_mem fetch nowDate nowTime rest acc n c hnd2.2 htl

theorem updateLoop_all_error
    (fetch : RouteConfig → String → String → Except String JourneyData)
    (nowDate nowTime : String) :
    ∀ (rest : List (String × RouteConfig)) (acc : List (String × JourneyData)),
      (∀ (n : String) (c : RouteConfig), (n, c) ∈ rest →
        exceptOk (fetch c (resolveOrDefault c.date nowDate) (resolveOrDefault c.time nowTime)) = false) →
      updateLoop fetch nowDate nowTime acc rest = acc
  | [], _, _ => rfl
  | (m, c0) :: rest, acc, h => by
    have hh := h m c0 (List.mem_cons_self _ _)
    simp only [updateLoop]
    cases hf : fetch c0 (resolveOrDefault c0.date nowDate) (resolveOrDefault c0.time nowTime) with
    | ok jd => rw [hf] at hh; simp [exceptOk] at hh
    | error e =>
      exact updateLoop_all_error fetch nowDate nowTime rest acc
        (fun n c hm => h n c (List.mem_cons_of_mem _ hm))

theorem updateLoop_lookup_some
    (fetch : RouteConfig → String → String → Except String JourneyData)
    (nowDate nowTime : String) :
    ∀ (rest : List (String × RouteConfig)) (acc : List (String × JourneyData))
      (n : String) (jd : JourneyData),
      dlookup (updateLoop fetch nowDate nowTime acc rest) n = some jd →
      (∃ c, (n, c) ∈ rest ∧
        fetch c (resolveOrDefault c.date nowDate) (resolveOrDefault c.time nowTime) = .ok jd) ∨
      dlookup acc n = some jd
  | [], acc, n, jd, h => .inr h
  | (m, c0) :: rest, acc, n, jd, h => by
    simp only [updateLoop] at h
    cases hf : fetch c0 (resolveOrDefault c0.date nowDate) (resolveOrDefault c0.time nowTime) with
    | ok jd0 =>
      rw [hf] at h
      rcases updateLoop_lookup_some fetch nowDate nowTime rest (dset acc m jd0) n jd h with hin | hacc
      · rcases hin with ⟨c, hc1, hc2⟩
        exact .inl ⟨c, List.mem_cons_of_mem _ hc1, hc2⟩
      · by_cases hnm : n = m
        · subst hnm
          rw [dlookup_dset_self n jd0 acc] at hacc
          have : jd0 = jd := by injection hacc
          subst this
          exact .inl ⟨c0, List.mem_cons_self _ _, hf⟩
        · rw [dlookup_dset_ne m n jd0 hnm acc] at hacc
          exact .inr hacc
    | error e =>
      rw [hf] at h
      rcases updateLoop_lookup_some fetch nowDate nowTime rest acc n jd h with hin | hacc
      · rcases hin with ⟨c, hc1, hc2⟩
        exact .inl ⟨c, List.mem_cons_of_mem _ hc1, hc2⟩
      · exact .inr hacc

theorem dlookup_eq_of_mem_nodup :
    ∀ (l : List (String × RouteConfig)) (n : String) (c : RouteConfig),
      (l.map Prod.fst).Nodup → (n, c) ∈ l → dlookup l n = some c
  | [], _, _, _, hmem => by simp at hmem
  | (m, c0) :: rest, n, c, hnd, hmem => by
    have hnd2 : m ∉ rest.map Prod.fst ∧ (rest.map Prod.fst).Nodup := by simpa using hnd
    rcases List.mem_cons.mp hmem with hhd | htl
    · have hm : m = n := by simpa using (congrArg Prod.fst hhd).symm
      have hc : c0 = c := by simpa using (congrArg Prod.snd hhd).symm
      subst hm; subst hc
      simp [dlookup, List.find?_cons]
    · have hm : (m == n) = false := by
        simp only [beq_eq_false_iff_ne, ne_eq]
        intro hEq
        subst hEq
        exact hnd2.1 (List.mem_map.mpr ⟨(m, c), htl, rfl⟩)
      have ih := dlookup_eq_of_mem_nodup rest n c hnd2.2 htl
      simpa [dlookup, List.find?_cons, hm] using ih

/-- Claim C1: the spec says a route whose configured date is the relative
sentinel "today"/"tomorrow" is resolved to the current calendar date at poll
time, so polls on two calendar days pass two different literal date strings.
The code substitutes the poll-time date only when the configured date is the
empty string (coordinator.py:133, `route_config.date or default`): the
literal "today" passes through unchanged, and two polls on 2026-10-12 and
2026-10-13 store the very same literal date string "today" in the snapshot
(the `JourneyData` echoes the date handed to `get_journey_options`). -/
theorem today_sentinel_passed_verbatim_on_both_days :
    resolveOrDefault todayRoute.date "2026-10-12" = "today" ∧
    resolveOrDefault todayRoute.date "2026-10-13" = "today" ∧
    dlookup (async_update_data [("work", todayRoute)] "2026-10-12" "08:00"
        (fetchEcho (fun _ => []))).routes "work" =
      some { options := [], from_location := "Home", to_location := "Office",
             date := "today", time := "08:00" } ∧
    dlookup (async_update_data [("work", todayRoute)] "2026-10-13" "09:30"
        (fetchEcho (fun _ => []))).routes "work" =
      some { options := [], from_location := "Home", to_location := "Office",
             date := "today", time := "08:00" } :=
  ⟨rfl, rfl, rfl, rfl⟩

/-- Claim C6: a call to `get_journey_options` with a blank `from_location`,
`to_location`, `from_position` or `to_position` raises a `ValueError`
synchronously before any network request: the network-call trace is empty
and the outcome is an error. -/
theorem blank_params_fail_before_network
    (from_location from_type from_position from_locality
     to_location to_type to_position to_locality date time departure_option : String)
    (transport_options : Option (List String)) (walk_speed : String)
    (max_connections : Option Int) (max_walking_distance : Option String)
    (h : (isBlank from_location || isBlank to_location ||
          isBlank from_position || isBlank to_position) = true) :
    (get_journey_options_send from_location from_type from_position from_locality
        to_location to_type to_position to_locality date time departure_option
        transport_options walk_speed max_connections max_walking_distance).1 = [] ∧
    exceptOk (get_journey_options_send from_location from_type from_position from_locality
        to_location to_type to_position to_locality date time departure_option
        transport_options walk_speed max_connections max_walking_distance).2 = false := by
  by_cases h1 : isBlank from_location = true
  · simp [get_journey_options_send, h1, exceptOk]
  · have h1f : isBlank from_location = false := by simpa using h1
    by_cases h2 : isBlank to_location = true
    · simp [get_journey_options_send, h1f, h2, exceptOk]
    · have h2f : isBlank to_location = false := by simpa using h2
      by_cases h3 : isBlank from_position = true
      · simp [get_journey_options_send, h1f, h2f, h3, exceptOk]
      · have h3f : isBlank from_position = false := by simpa using h3
        by_cases h4 : isBlank to_position = true
        · simp [get_journey_options_send, h1f, h2f, h3f, h4, exceptOk]
        · exfalso
          have h4f : isBlank to_position = false := by simpa using h4
          rw [h1f, h2f, h3f, h4f] at h
          simp at h

/-- Witness for C6 at a concrete blank `from_location`. -/
theorem blank_params_fail_before_network_witness :
    (get_journey_options_send "" "" "-31.95,115.85" "" "Office" "" "-31.96,115.86" ""
        "2026-10-12" "08:00" "leave_after" none "normal" none none).1 = [] ∧
    exceptOk (get_journey_options_send "" "" "-31.95,115.85" "" "Office" "" "-31.96,115.86" ""
        "2026-10-12" "08:00" "leave_after" none "normal" none none).2 = false :=
  blank_params_fail_before_network "" "" "-31.95,115.85" "" "Office" "" "-31.96,115.86" ""
    "2026-10-12" "08:00" "leave_after" none "normal" none none (by decide)

/-- Claim C4: per-route failure isolation of the poll cycle. Over any
registry with distinct route names and any fetch behaviour: a route whose
fetch succeeds appears in the snapshot under its name with its fetched data,
a route whose fetch raises is omitted, and a cycle in which every route
fails returns the empty (but valid) snapshot; `async_update_data` is a total
function, so the update itself never raises. -/
theorem failed_routes_omitted_successes_present
    (routes : List (String × RouteConfig)) (nowDate nowTime : String)
    (fetch : RouteConfig → String → String → Except String JourneyData)
    (hnd : (routes.map Prod.fst).Nodup) :
    (∀ (n : String) (cfg : RouteConfig) (jd : JourneyData), (n, cfg) ∈ routes →
      fetch cfg (resolveOrDefault cfg.date nowDate) (resolveOrDefault cfg.time nowTime) = .ok jd →
      dlookup (async_update_data routes nowDate nowTime fetch).routes n = some jd) ∧
    (∀ (n : String) (cfg : RouteConfig), (n, cfg) ∈ routes →
      exceptOk (fetch cfg (resolveOrDefault cfg.date nowDate) (resolveOrDefault cfg.time nowTime)) = false →
      dlookup (async_update_data routes nowDate nowTime fetch).routes n = none) ∧
    ((∀ (n : String) (cfg : RouteConfig), (n, cfg) ∈ routes →
      exceptOk (fetch cfg (resolveOrDefault cfg.date nowDate) (resolveOrDefault cfg.time nowTime)) = false) →
      (async_update_data routes nowDate nowTime fetch).routes = []) := by
  refine ⟨?_, ?_, ?_⟩
  · intro n cfg jd hmem hok
    have hh := updateLoop_lookup_mem fetch nowDate nowTime routes [] n cfg hnd hmem
    rw [hok] at hh
    exact hh
  · intro n cfg hmem herr
    have hh := updateLoop_lookup_mem fetch nowDate nowTime routes [] n cfg hnd hmem
    cases hf : fetch cfg (resolveOrDefault cfg.date nowDate) (resolveOrDefault cfg.time nowTime) with
    | ok jd => rw [hf] at herr; simp [exceptOk] at herr
    | error e =>
      rw [hf] at hh
      exact hh.trans rfl
  · intro hall
    exact updateLoop_all_error fetch nowDate nowTime routes [] hall

/-- Witness for C4: three routes A, B, C where B's fetch raises a timeout;
A and C are present in the snapshot, B is absent. -/
theorem failed_routes_omitted_witness :
    dlookup (async_update_data threeRoutes "2026-10-12" "07:00" fetchBFails).routes "A" =
      some { options := [], from_location := "HomeA", to_location := "WorkA",
             date := "2026-10-12", time := "08:00" } ∧
    dlookup (async_update_data threeRoutes "2026-10-12" "07:00" fetchBFails).routes "B" = none ∧
    dlookup (async_update_data threeRoutes "2026-10-12" "07:00" fetchBFails).routes "C" =
      some { options := [], from_location := "HomeC", to_location := "WorkC",
             date := "2026-10-12", time := "08:00" } := by
  refine ⟨?_, ?_, ?_⟩
  · exact (failed_routes_omitted_successes_present threeRoutes "2026-10-12" "07:00"
      fetchBFails (by decide)).1 "A" (mkRoute "A" "HomeA" "WorkA" "") _
      (by simp [threeRoutes]) rfl
  · exact (failed_routes_omitted_successes_present threeRoutes "2026-10-12" "07:00"
      fetchBFails (by decide)).2.1 "B" (mkRoute "B" "HomeB" "WorkB" "")
      (by simp [threeRoutes]) rfl
  · exact (failed_routes_omitted_successes_present threeRoutes "2026-10-12" "07:00"
      fetchBFails (by decide)).1 "C" (mkRoute "C" "HomeC" "WorkC" "") _
      (by simp [threeRoutes]) rfl

/-- Claim C10: snapshot invariant. Every key of the snapshot returned by
`async_update_data` is the name of a configured route (its registry lookup
is defined), and the stored value is exactly what that route's own fetch
returned (with its resolved date and time). -/
theorem snapshot_entries_come_from_registry
    (routes : List (String × RouteConfig)) (nowDate nowTime : String)
    (fetch : RouteConfig → String → String → Except String JourneyData)
    (hnd : (routes.map Prod.fst).Nodup) (n : String) (jd : JourneyData)
    (hsnap : dlookup (async_update_data routes nowDate nowTime fetch).routes n = some jd) :
    (dlookup routes n).isSome = true ∧
    (∀ cfg, dlookup routes n = some cfg →
      fetch cfg (resolveOrDefault cfg.date nowDate) (resolveOrDefault cfg.time nowTime) = .ok jd) := by
  have h := updateLoop_lookup_some fetch nowDate nowTime routes [] n jd hsnap
  rcases h with ⟨c, hc1, hc2⟩ | habs
  · have hl := dlookup_eq_of_mem_nodup routes n c hnd hc1
    refine ⟨by rw [hl]; rfl, ?_⟩
    intro cfg hcfg
    rw [hl] at hcfg
    have hcc : c = cfg := by injection hcfg
    rw [← hcc]
    exact hc2
  · simp [dlookup] at habs

/-- Witness for C10 at the three-route scenario: the snapshot entry for A
is backed by route A's registry entry and its own fetch result. -/
theorem snapshot_entries_come_from_registry_witness :
    (dlookup threeRoutes "A").isSome = true ∧
    fetchBFails (mkRoute "A" "HomeA" "WorkA" "")
      (resolveOrDefault (mkRoute "A" "HomeA" "WorkA" "").date "2026-10-12")
      (resolveOrDefault (mkRoute "A" "HomeA" "WorkA" "").time "07:00") =
      .ok { options := [], from_location := "HomeA", to_location := "WorkA",
            date := "2026-10-12", time := "08:00" } := by
  have h := snapshot_entries_come_from_registry threeRoutes "2026-10-12" "07:00"
    fetchBFails (by decide) "A"
    { options := [], from_location := "HomeA", to_location := "WorkA",
      date := "2026-10-12", time := "08:00" } rfl
  exact ⟨h.1, h.2 (mkRoute "A" "HomeA" "WorkA" "") rfl⟩

theorem except_bind_ok {α β : Type} (a : α) (f : α → Except String β) :
    (Except.ok a : Except String α) >>= f = f a := rfl

theorem except_bind_error {α β : Type} (e : String) (f : α → Except String β) :
    (Except.error e : Except String α) >>= f = Except.error e := rfl

theorem parse_json_append : ∀ (l1 l2 : List PyVal),
    parse_json_journey_options (l1 ++ l2) =
      parse_json_journey_options l1 ++ parse_json_journey_options l2
  | [], l2 => rfl
  | j :: rest, l2 => by
    cases hpj : parseJourney j with
    | ok opt => simp [parse_json_journey_options, hpj, parse_json_append rest l2]
    | error e => simp [parse_json_journey_options, hpj, parse_json_append rest l2]

theorem parse_json_length_all_ok : ∀ (l : List PyVal),
    (∀ j ∈ l, exceptOk (parseJourney j) = true) →
    (parse_json_journey_options l).length = l.length
  | [], _ => rfl
  | j :: rest, h => by
    cases hpj : parseJourney j with
    | ok opt =>
      simp [parse_json_journey_options, hpj,
        parse_json_length_all_ok rest (fun x hx => h x (List.mem_cons_of_mem _ hx))]
    | error e =>
      have hc := h j (List.mem_cons_self _ _)
      rw [hpj] at hc
      simp [exceptOk] at hc

theorem mapME_error_of_mem {α β : Type} (f : α → Except String β) :
    ∀ (l : List α) (x : α) (e : String), x ∈ l → f x = .error e →
      ∃ e2, mapME f l = .error e2
  | [], x, e, hx, _ => by simp at hx
  | y :: tl, x, e, hx, hfx => by
    rcases List.mem_cons.mp hx with h | h
    · subst h
      exact ⟨e, by simp [mapME, hfx]⟩
    · cases hfy : f y with
      | error e2 => exact ⟨e2, by simp [mapME, hfy]⟩
      | ok b =>
        rcases mapME_error_of_mem f tl x e h hfx with ⟨e2, he2⟩
        exact ⟨e2, by simp [mapME, hfy, he2]⟩

theorem classifyE_vstr (tv t : String) :
    classifyE tv (.vstr t) = .ok (classifyLevelsSpec tv t) := by
  by_cases h : (tv == "walk") = true
  · have h1 : tv = "walk" := by simpa using h
    simp [classifyE, classifyLevelsSpec, pyLower, h1]
  · have h2 : (tv == "walk") = false := by simpa using h
    simp [classifyE, classifyLevelsSpec, pyLower, h2]

theorem parseRow_index (i : Nat) (r : HtmlNode) :
    (parseRow i r).index = .vint (Int.ofNat i) := rfl

theorem parseRows_length : ∀ (rows : List HtmlNode) (i : Nat),
    (parseRows i rows).length = rows.length
  | [], _ => rfl
  | r :: rest, i => by simp [parseRows, parseRows_length rest (i + 1)]

theorem parseRows_map_index : ∀ (rows : List HtmlNode) (i : Nat),
    (parseRows i rows).map (fun o => o.index) =
      (List.range' i rows.length).map (fun n => PyVal.vint (Int.ofNat n))
  | [], _ => rfl
  | r :: rest, i => by
    simp only [parseRows, List.length_cons, List.range'_succ, List.map_cons,
      parseRows_map_index rest (i + 1), parseRow_index]

/-- Counterexample to claim C2: a payload of 2 journey entries in which
exactly one entry contains a leg whose parsing raises (`TripVehicle` is an
int, so `.lower()` raises) yields 1 returned option, not 2: the per-journey
`except` catches the leg's raise and drops the whole option. -/
theorem raising_leg_payload_returns_fewer_options_cex :
    exceptOk (parseTrip (.vdict [("TripVehicle", .vint 5)])) = false ∧
    (parse_json_journey_options [wellFormedJourney, badLegJourney]).length = 1 ∧
    (1 : Nat) ≠ 2 :=
  ⟨rfl, rfl, by decide⟩

/-- Claim C2 amended: in `_parse_json_journey_options` the per-entry
`try/except` wraps the whole journey, so an entry one of whose legs raises
is dropped as a whole (not returned with the bad leg omitted); the other
entries are returned unchanged and in order, so a payload of N entries with
exactly one raising-leg entry yields N-1 options. -/
theorem raising_leg_drops_whole_option
    (pre post : List PyVal) (j : PyVal) (e : String)
    (fields : List (String × PyVal)) (trips : List PyVal) (tr : PyVal) (e2 : String)
    (hj : parseJourney j = .error e)
    (hiter : pyIter (dictGet fields "JnyTripDetails" (.vlist [])) = .ok trips)
    (htr : tr ∈ trips) (htrErr : parseTrip tr = .error e2)
    (hpre : ∀ x ∈ pre, exceptOk (parseJourney x) = true)
    (hpost : ∀ x ∈ post, exceptOk (parseJourney x) = true) :
    parse_json_journey_options (pre ++ j :: post) =
      parse_json_journey_options pre ++ parse_json_journey_options post ∧
    exceptOk (parseJourney (.vdict fields)) = false ∧
    (parse_json_journey_options (pre ++ j :: post)).length = pre.length + post.length := by
  have hdrop : parse_json_journey_options (pre ++ j :: post) =
      parse_json_journey_options pre ++ parse_json_journey_options post := by
    rw [parse_json_append pre (j :: post)]
    simp [parse_json_journey_options, hj]
  refine ⟨hdrop, ?_, ?_⟩
  · rcases mapME_error_of_mem parseTrip trips tr e2 htr htrErr with ⟨e3, he3⟩
    simp only [parseJourney, PyVal.get, except_bind_ok, hiter, he3]
    rfl
  · rw [hdrop]
    rw [List.length_append, parse_json_length_all_ok pre hpre,
      parse_json_length_all_ok post hpost]

/-- Witness for the amended C2 at the concrete two-entry payload. -/
theorem raising_leg_drops_whole_option_witness :
    parse_json_journey_options ([wellFormedJourney] ++ badLegJourney :: []) =
      parse_json_journey_options [wellFormedJourney] ++ parse_json_journey_options [] ∧
    exceptOk (parseJourney (.vdict [("JnyNumber", .vint 2),
      ("JnyTripDetails", .vlist [.vdict [("TripVehicle", .vint 5)], .vdict []])])) = false ∧
    (parse_json_journey_options ([wellFormedJourney] ++ badLegJourney :: [])).length =
      [wellFormedJourney].length + ([] : List PyVal).length :=
  raising_leg_drops_whole_option [wellFormedJourney] [] badLegJourney "AttributeError: lower"
    [("JnyNumber", .vint 2),
     ("JnyTripDetails", .vlist [.vdict [("TripVehicle", .vint 5)], .vdict []])]
    [.vdict [("TripVehicle", .vint 5)], .vdict []]
    (.vdict [("TripVehicle", .vint 5)]) "AttributeError: lower"
    rfl rfl (by simp) rfl
    (by intro x hx; simp only [List.mem_singleton] at hx; subst hx; rfl)
    (by intro x hx; simp at hx)

/-- Counterexample to claim C3: the vehicle-kind field does not always
decide first. A trip with `TripVehicle` "bus" but title "Walk to stop"
classifies as walk (the walk-level title test fires before the bus-level
vehicle test), while the claim's vehicle-first reading classifies it bus. -/
theorem title_overrides_vehicle_field_cex :
    classifyE "bus" (.vstr "Walk to stop") = .ok "walk" ∧
    classifyVehicleFirstSpec "bus" "Walk to stop" = "bus" ∧
    ("walk" : String) ≠ "bus" :=
  ⟨rfl, rfl, by decide⟩

/-- Claim C3 amended: classification walks the precedence levels walk, bus,
train, ferry, cat; at each level the leg matches if the vehicle-kind field
equals that kind OR the lowercased title contains the keyword, with default
walk — so a higher-precedence title keyword can override the vehicle field.
The claim's examples hold: an unset vehicle field with a title containing
"Bus" gives bus, and no matching keyword at all gives walk. -/
theorem leg_type_levelwise_vehicle_or_title :
    (∀ tv t : String, classifyE tv (.vstr t) = .ok (classifyLevelsSpec tv t)) ∧
    classifyE "" (.vstr "Catch Bus 276") = .ok "bus" ∧
    classifyE "" (.vstr "transfer at stand 2") = .ok "walk" :=
  ⟨classifyE_vstr, rfl, rfl⟩

/-- Counterexample to claim C7: the title clean-up is not a prefix strip.
For the title "A Catch B" (route code and duration absent) the code removes
the interior "Catch " as well, producing description "A B", while the
claim's prefix-stripping reading leaves "A Catch B" unchanged. -/
theorem description_removes_interior_occurrence_cex :
    Except.map (fun leg => leg.description) (parseTrip interiorCatchTrip) =
      .ok (.vstr "A B") ∧
    stripLeadingPrefixesSpec "A Catch B" = "A Catch B" ∧
    PyVal.vstr "A B" ≠ PyVal.vstr "A Catch B" := by
  refine ⟨rfl, rfl, ?_⟩
  intro h
  injection h with h2
  exact absurd h2 (by decide)

/-- Claim C7 amended: the description joins with single spaces, in order,
the route code if non-empty, the title with EVERY occurrence of "Catch ",
then "Walk to ", then "Walk " removed (replace-all, not only a leading
prefix), and the parenthesized duration; when all three are absent it falls
back to the raw title or the (lowercased) vehicle-kind string. The spec's
example still yields "276 Bus 276 (12 mins)". -/
theorem description_join_with_replace_all :
    (∀ tv code title dur : String,
      buildDescription (.vstr code) (.vstr title) (.vstr dur) tv =
        .ok (.vstr (buildDescriptionSpec code title dur tv))) ∧
    parseTrip exTrip276 =
      .ok { type := "bus", description := .vstr "276 Bus 276 (12 mins)",
            service_code := .vstr "276" } := by
  refine ⟨?_, rfl⟩
  intro tv code title dur
  cases hc : code.isEmpty <;> cases ht : title.isEmpty <;> cases hd : dur.isEmpty <;>
    simp [buildDescription, buildDescriptionSpec, PyVal.truthy, pyReplace3,
      removeAllOccurrencesSpec, pyJoinSpace, PyVal.isStr, PyVal.asStr, pyStr,
      pyOr, hc, ht, hd, except_bind_ok, pure, Except.pure]

/-- Counterexample to claim C8: the index of a JSON-parsed option is not its
1-based position. A payload with a single journey entry that lacks
`JnyNumber` yields an option at position 1 whose index is 0. -/
theorem json_index_not_positional_cex :
    (parse_json_journey_options [PyVal.vdict []]).map (fun o => o.index) = [.vint 0] ∧
    PyVal.vint 0 ≠ PyVal.vint 1 := by
  refine ⟨rfl, ?_⟩
  intro h
  injection h with h2
  exact absurd h2 (by decide)

/-- Claim C8 amended: the HTML parser assigns 1-based indexes in document
row order; the JSON parser instead copies the entry's `JnyNumber` field
(default 0) into the index; both return options in upstream order without
re-sorting (parsing distributes over concatenation of the payload). -/
theorem index_html_positional_json_from_payload :
    (∀ soup : HtmlNode,
      (parse_journey_options soup).map (fun o => o.index) =
        (List.range' 1 (parse_journey_options soup).length).map
          (fun n => PyVal.vint (Int.ofNat n))) ∧
    (∀ (fields : List (String × PyVal)) (opt : JourneyOption),
      parseJourney (.vdict fields) = .ok opt →
      opt.index = dictGet fields "JnyNumber" (.vint 0)) ∧
    (∀ l1 l2 : List PyVal,
      parse_json_journey_options (l1 ++ l2) =
        parse_json_journey_options l1 ++ parse_json_journey_options l2) := by
  refine ⟨?_, ?_, parse_json_append⟩
  · intro soup
    cases hft : findTable soup with
    | none => simp [parse_journey_options, hft]
    | some table =>
      cases htb : findIn table (fun n => isTag n "tbody") with
      | none => simp [parse_journey_options, hft, htb]
      | some tbody =>
        cases he : ((childrenOf tbody).filter (fun n => isTag n "tr")).isEmpty with
        | true => simp [parse_journey_options, hft, htb, he]
        | false =>
          simp only [parse_journey_options, hft, htb, he, Bool.false_eq_true, if_false]
          rw [parseRows_map_index, parseRows_length]
  · intro fields opt h
    simp only [parseJourney, PyVal.get, except_bind_ok] at h
    cases hit : pyIter (dictGet fields "JnyTripDetails" (.vlist [])) with
    | error e => rw [hit, except_bind_error] at h; simp at h
    | ok trips =>
      rw [hit, except_bind_ok] at h
      cases hmp : mapME parseTrip trips with
      | error e => rw [hmp, except_bind_error] at h; simp at h
      | ok legs =>
        rw [hmp, except_bind_ok] at h
        simp only [pure, Except.pure, Except.ok.injEq] at h
        rw [← h]

/-- Witness for the amended C8: a two-row HTML table yields indexes 1 and 2;
a JSON entry with `JnyNumber` 7 yields index 7; parsing distributes over a
concrete payload concatenation. -/
theorem index_html_positional_json_from_payload_witness :
    (parse_journey_options rowsDoc).map (fun o => o.index) =
      (List.range' 1 (parse_journey_options rowsDoc).length).map
        (fun n => PyVal.vint (Int.ofNat n)) ∧
    ({ leave_time := .vstr "", arrive_time := .vstr "", travel_time := .vstr "",
       legs := [], index := .vint 7 } : JourneyOption).index =
      dictGet journeyNumbered7 "JnyNumber" (.vint 0) ∧
    parse_json_journey_options ([.vdict journeyNumbered7] ++ [PyVal.vdict []]) =
      parse_json_journey_options [.vdict journeyNumbered7] ++
        parse_json_journey_options [PyVal.vdict []] :=
  ⟨index_html_positional_json_from_payload.1 rowsDoc,
   index_html_positional_json_from_payload.2.1 journeyNumbered7
     { leave_time := .vstr "", arrive_time := .vstr "", travel_time := .vstr "",
       legs := [], index := .vint 7 } rfl,
   index_html_positional_json_from_payload.2.2 [.vdict journeyNumbered7] [PyVal.vdict []]⟩

theorem dictGet_eq_dlookup (kvs : List (String × PyVal)) (k : String) (dflt : PyVal) :
    dictGet kvs k dflt = (dlookup kvs k).getD dflt := by
  unfold dictGet dlookup
  cases kvs.find? (fun kv => kv.1 == k) <;> rfl

theorem setTransportFlags_bus (p : List (String × PyVal)) (topts : List String) :
    dlookup (setTransportFlags p topts) "TransportBus" =
      some (.vbool (topts.contains "bus")) := by
  unfold setTransportFlags
  rw [dlookup_dset_ne "TransportSchoolBus" "TransportBus" _ (by decide),
      dlookup_dset_ne "TransportFerry" "TransportBus" _ (by decide),
      dlookup_dset_ne "TransportTrain" "TransportBus" _ (by decide),
      dlookup_dset_self]

theorem setTransportFlags_train (p : List (String × PyVal)) (topts : List String) :
    dlookup (setTransportFlags p topts) "TransportTrain" =
      some (.vbool (topts.contains "train")) := by
  unfold setTransportFlags
  rw [dlookup_dset_ne "TransportSchoolBus" "TransportTrain" _ (by decide),
      dlookup_dset_ne "TransportFerry" "TransportTrain" _ (by decide),
      dlookup_dset_self]

theorem setTransportFlags_ferry (p : List (String × PyVal)) (topts : List String) :
    dlookup (setTransportFlags p topts) "TransportFerry" =
      some (.vbool (topts.contains "ferry")) := by
  unfold setTransportFlags
  rw [dlookup_dset_ne "TransportSchoolBus" "TransportFerry" _ (by decide),
      dlookup_dset_self]

theorem setTransportFlags_school (p : List (String × PyVal)) (topts : List String) :
    dlookup (setTransportFlags p topts) "TransportSchoolBus" =
      some (.vbool (topts.contains "school_bus")) := by
  unfold setTransportFlags
  rw [dlookup_dset_self]

theorem addTransport_flags (p : List (String × PyVal)) (transport_options : Option (List String)) :
    dlookup (addTransport p transport_options) "TransportBus" =
      some (.vbool ((transport_options.getD []).contains "bus" ||
        !((transport_options.getD []).contains "bus" ||
          (transport_options.getD []).contains "train" ||
          (transport_options.getD []).contains "ferry" ||
          (transport_options.getD []).contains "school_bus"))) ∧
    dlookup (addTransport p transport_options) "TransportTrain" =
      some (.vbool ((transport_options.getD []).contains "train" ||
        !((transport_options.getD []).contains "bus" ||
          (transport_options.getD []).contains "train" ||
          (transport_options.getD []).contains "ferry" ||
          (transport_options.getD []).contains "school_bus"))) ∧
    dlookup (addTransport p transport_options) "TransportFerry" =
      some (.vbool ((transport_options.getD []).contains "ferry")) ∧
    dlookup (addTransport p transport_options) "TransportSchoolBus" =
      some (.vbool ((transport_options.getD []).contains "school_bus")) := by
  simp only [addTransport]
  rw [dictGet_eq_dlookup, dictGet_eq_dlookup, dictGet_eq_dlookup, dictGet_eq_dlookup,
    setTransportFlags_bus, setTransportFlags_train, setTransportFlags_ferry,
    setTransportFlags_school]
  simp only [Option.getD_some, PyVal.truthy]
  by_cases hAny : ((transport_options.getD []).contains "bus" ||
      (transport_options.getD []).contains "train" ||
      (transport_options.getD []).contains "ferry" ||
      (transport_options.getD []).contains "school_bus") = true
  · simp only [hAny, Bool.not_true, Bool.false_eq_true, if_false, Bool.or_false]
    exact ⟨setTransportFlags_bus p _, setTransportFlags_train p _,
      setTransportFlags_ferry p _, setTransportFlags_school p _⟩
  · have hAnyF : ((transport_options.getD []).contains "bus" ||
        (transport_options.getD []).contains "train" ||
        (transport_options.getD []).contains "ferry" ||
        (transport_options.getD []).contains "school_bus") = false := by
      simpa using hAny
    simp only [hAnyF, Bool.not_false, if_true, Bool.or_true]
    refine ⟨?_, ?_, ?_, ?_⟩
    · rw [dlookup_dset_ne "TransportTrain" "TransportBus" _ (by decide),
        dlookup_dset_self]
    · rw [dlookup_dset_self]
    · rw [dlookup_dset_ne "TransportTrain" "TransportFerry" _ (by decide),
        dlookup_dset_ne "TransportBus" "TransportFerry" _ (by decide),
        setTransportFlags_ferry]
    · rw [dlookup_dset_ne "TransportTrain" "TransportSchoolBus" _ (by decide),
        dlookup_dset_ne "TransportBus" "TransportSchoolBus" _ (by decide),
        setTransportFlags_school]

theorem addTail_preserves (p : List (String × PyVal)) (walk_speed : String)
    (max_connections : Option Int) (max_walking_distance : Option String) (k : String)
    (h1 : k ≠ "WalkSpeed") (h2 : k ≠ "MaxConnections") (h3 : k ≠ "MaxWalkingDistance")
    (h4 : k ≠ "ReturnNotes") (h5 : k ≠ "ReturnNoteCodes") (h6 : k ≠ "MaxJourneys") :
    dlookup (addTail p walk_speed max_connections max_walking_distance) k = dlookup p k := by
  simp only [addTail]
  rw [dlookup_dset_ne "MaxJourneys" k _ h6,
      dlookup_dset_ne "ReturnNoteCodes" k _ h5,
      dlookup_dset_ne "ReturnNotes" k _ h4,
      dlookup_dset_ne "MaxWalkingDistance" k _ h3,
      dlookup_dset_ne "MaxConnections" k _ h2,
      dlookup_dset_ne "WalkSpeed" k _ h1]

theorem send_ok_payload (from_location from_type from_position from_locality
    to_location to_type to_position to_locality date time departure_option : String)
    (transport_options : Option (List String)) (walk_speed : String)
    (max_connections : Option Int) (max_walking_distance : Option String)
    (p : List (String × PyVal))
    (h : (get_journey_options_send from_location from_type from_position from_locality
        to_location to_type to_position to_locality date time departure_option
        transport_options walk_speed max_connections max_walking_distance).2 = .ok p) :
    p = buildPayload from_location from_type from_position from_locality
        to_location to_type to_position to_locality date time
        transport_options walk_speed max_connections max_walking_distance := by
  by_cases h1 : isBlank from_location = true
  · simp [get_journey_options_send, h1] at h
  · have h1f : isBlank from_location = false := by simpa using h1
    by_cases h2 : isBlank to_location = true
    · simp [get_journey_options_send, h1f, h2] at h
    · have h2f : isBlank to_location = false := by simpa using h2
      by_cases h3 : isBlank from_position = true
      · simp [get_journey_options_send, h1f, h2f, h3] at h
      · have h3f : isBlank from_position = false := by simpa using h3
        by_cases h4 : isBlank to_position = true
        · simp [get_journey_options_send, h1f, h2f, h3f, h4] at h
        · have h4f : isBlank to_position = false := by simpa using h4
          simp only [get_journey_options_send, h1f, h2f, h3f, h4f,
            Bool.false_eq_true, if_false] at h
          have h5 := h.symm
          injection h5

theorem buildPayload_transport (from_location from_type from_position from_locality
    to_location to_type to_position to_locality date time : String)
    (transport_options : Option (List String)) (walk_speed : String)
    (max_connections : Option Int) (max_walking_distance : Option String) :
    dlookup (buildPayload from_location from_type from_position from_locality
        to_location to_type to_position to_locality date time
        transport_options walk_speed max_connections max_walking_distance) "TransportBus" =
      some (.vbool ((transport_options.getD []).contains "bus" ||
        !((transport_options.getD []).contains "bus" ||
          (transport_options.getD []).contains "train" ||
          (transport_options.getD []).contains "ferry" ||
          (transport_options.getD []).contains "school_bus"))) ∧
    dlookup (buildPayload from_location from_type from_position from_locality
        to_location to_type to_position to_locality date time
        transport_options walk_speed max_connections max_walking_distance) "TransportTrain" =
      some (.vbool ((transport_options.getD []).contains "train" ||
        !((transport_options.getD []).contains "bus" ||
          (transport_options.getD []).contains "train" ||
          (transport_options.getD []).contains "ferry" ||
          (transport_options.getD []).contains "school_bus"))) ∧
    dlookup (buildPayload from_location from_type from_position from_locality
        to_location to_type to_position to_locality date time
        transport_options walk_speed max_connections max_walking_distance) "TransportFerry" =
      some (.vbool ((transport_options.getD []).contains "ferry")) ∧
    dlookup (buildPayload from_location from_type from_position from_locality
        to_location to_type to_position to_locality date time
        transport_options walk_speed max_connections max_walking_distance) "TransportSchoolBus" =
      some (.vbool ((transport_options.getD []).contains "school_bus")) := by
  unfold buildPayload
  have hfl := addTransport_flags
    (addLocalities (basePayload from_location from_type from_position
      to_location to_type to_position date time) from_locality to_locality)
    transport_options
  rw [addTail_preserves _ _ _ _ "TransportBus"
        (by decide) (by decide) (by decide) (by decide) (by decide) (by decide),
      addTail_preserves _ _ _ _ "TransportTrain"
        (by decide) (by decide) (by decide) (by decide) (by decide) (by decide),
      addTail_preserves _ _ _ _ "TransportFerry"
        (by decide) (by decide) (by decide) (by decide) (by decide) (by decide),
      addTail_preserves _ _ _ _ "TransportSchoolBus"
        (by decide) (by decide) (by decide) (by decide) (by decide) (by decide)]
  exact hfl

/-- Claim C5: a `get_journey_options` call whose transport-option list is
None or empty sends a payload with TransportBus and TransportTrain true,
and no payload is ever sent with all four transport flags false. -/
theorem empty_transport_defaults_to_bus_train
    (from_location from_type from_position from_locality
     to_location to_type to_position to_locality date time departure_option : String)
    (transport_options : Option (List String)) (walk_speed : String)
    (max_connections : Option Int) (max_walking_distance : Option String)
    (p : List (String × PyVal))
    (hok : (get_journey_options_send from_location from_type from_position from_locality
        to_location to_type to_position to_locality date time departure_option
        transport_options walk_speed max_connections max_walking_distance).2 = .ok p) :
    ((transport_options = none ∨ transport_options = some []) →
      dlookup p "TransportBus" = some (.vbool true) ∧
      dlookup p "TransportTrain" = some (.vbool true)) ∧
    ¬(dlookup p "TransportBus" = some (.vbool false) ∧
      dlookup p "TransportTrain" = some (.vbool false) ∧
      dlookup p "TransportFerry" = some (.vbool false) ∧
      dlookup p "TransportSchoolBus" = some (.vbool false)) := by
  have hp := send_ok_payload from_location from_type from_position from_locality
    to_location to_type to_position to_locality date time departure_option
    transport_options walk_speed max_connections max_walking_distance p hok
  have hfl := buildPayload_transport from_location from_type from_position from_locality
    to_location to_type to_position to_locality date time
    transport_options walk_speed max_connections max_walking_distance
  rw [← hp] at hfl
  constructor
  · intro hopt
    have hempty : transport_options.getD [] = [] := by
      rcases hopt with h | h <;> rw [h] <;> rfl
    rw [hempty] at hfl
    exact ⟨by rw [hfl.1]; rfl, by rw [hfl.2.1]; rfl⟩
  · rintro ⟨hb, ht, hf, hs⟩
    rw [hfl.1] at hb
    rw [hfl.2.1] at ht
    rw [hfl.2.2.1] at hf
    rw [hfl.2.2.2] at hs
    simp only [Option.some.injEq, PyVal.vbool.injEq] at hb ht hf hs
    rcases Bool.or_eq_false_iff.mp hb with ⟨htb, hna⟩
    rcases Bool.or_eq_false_iff.mp ht with ⟨htt, _⟩
    rw [htb, htt, hf, hs] at hna
    simp at hna

/-- Witness for C5: a concrete call with an empty transport list sends bus
and train true (and hence not all four flags false). -/
theorem empty_transport_defaults_witness :
    ((some ([] : List String) = none ∨ some ([] : List String) = some []) →
      dlookup (buildPayload "Home" "" "-31.95,115.85" "" "Office" "" "-31.96,115.86" ""
        "2026-10-12" "08:00" (some []) "normal" none none) "TransportBus" =
          some (.vbool true) ∧
      dlookup (buildPayload "Home" "" "-31.95,115.85" "" "Office" "" "-31.96,115.86" ""
        "2026-10-12" "08:00" (some []) "normal" none none) "TransportTrain" =
          some (.vbool true)) ∧
    ¬(dlookup (buildPayload "Home" "" "-31.95,115.85" "" "Office" "" "-31.96,115.86" ""
        "2026-10-12" "08:00" (some []) "normal" none none) "TransportBus" =
          some (.vbool false) ∧
      dlookup (buildPayload "Home" "" "-31.95,115.85" "" "Office" "" "-31.96,115.86" ""
        "2026-10-12" "08:00" (some []) "normal" none none) "TransportTrain" =
          some (.vbool false) ∧
      dlookup (buildPayload "Home" "" "-31.95,115.85" "" "Office" "" "-31.96,115.86" ""
        "2026-10-12" "08:00" (some []) "normal" none none) "TransportFerry" =
          some (.vbool false) ∧
      dlookup (buildPayload "Home" "" "-31.95,115.85" "" "Office" "" "-31.96,115.86" ""
        "2026-10-12" "08:00" (some []) "normal" none none) "TransportSchoolBus" =
          some (.vbool false)) :=
  empty_transport_defaults_to_bus_train "Home" "" "-31.95,115.85" "" "Office" ""
    "-31.96,115.86" "" "2026-10-12" "08:00" "leave_after" (some []) "normal" none none
    (buildPayload "Home" "" "-31.95,115.85" "" "Office" "" "-31.96,115.86" ""
      "2026-10-12" "08:00" (some []) "normal" none none) rfl

/-- Claim C9: when no journey-results table can be located in the document —
no table element with id "jrne-opt-tbl", none carrying that class token, and
none whose caption text contains "Journey Options" — the HTML normalizer
returns the empty option sequence (and, being a total function, does not
raise; the source only logs error-like elements on this path). -/
theorem no_results_table_yields_empty
    (soup : HtmlNode)
    (h : ∀ n ∈ descendants soup, isTag n "table" = true →
      attrOf n "id" ≠ some "jrne-opt-tbl" ∧
      hasClassToken n "jrne-opt-tbl" = false ∧
      (findIn n (fun m => isTag m "caption")).all
        (fun cap => !containsSub (getText cap) "Journey Options") = true) :
    parse_journey_options soup = [] := by
  have h1 : findIn soup (fun n => isTag n "table" &&
      attrOf n "id" == some "jrne-opt-tbl") = none := by
    unfold findIn
    rw [List.find?_eq_none]
    intro x hx hp
    simp only [Bool.and_eq_true, beq_iff_eq] at hp
    exact (h x hx hp.1).1 hp.2
  have h2 : findIn soup (fun n => isTag n "table" &&
      hasClassToken n "jrne-opt-tbl") = none := by
    unfold findIn
    rw [List.find?_eq_none]
    intro x hx hp
    simp only [Bool.and_eq_true] at hp
    have h3 := (h x hx hp.1).2.1
    rw [h3] at hp
    exact absurd hp.2 (by simp)
  have hft : findTable soup = none := by
    simp only [findTable, h1, h2]
    rw [List.find?_eq_none]
    intro tbl htbl
    have hmem := List.mem_filter.mp htbl
    have h4 := (h tbl hmem.1 hmem.2).2.2
    cases hcap : findIn tbl (fun m => isTag m "caption") with
    | none => simp [hcap]
    | some cap =>
      rw [hcap] at h4
      simp only [Option.all_some] at h4
      simp only [hcap]
      intro hcontr
      rw [hcontr] at h4
      simp at h4
  simp [parse_journey_options, hft]

/-- Witness for C9 at a concrete document containing no table at all. -/
theorem no_results_table_yields_empty_witness :
    parse_journey_options noTableDoc = [] :=
  no_results_table_yields_empty noTableDoc (by
    intro n hn ht
    simp only [noTableDoc, descendants, descendantsList, List.append_nil,
      List.mem_cons, List.mem_singleton, List.not_mem_nil] at hn
    rcases hn with h | h | h
    · subst h; simp [isTag] at ht
    · subst h; simp [isTag] at ht
    · exact h.elim)
